import Mathlib

/-!
Shallow embedding of the real-time control pipeline
(sensor → processor → transmitter → receiver → actuator workers → feedback),
translated from the Rust sources:

  src/component_a/sensor.rs       (Sensor::run, SensorData, SensorType)
  src/component_a/processor.rs    (Processor::run, process_data, ProcessedPacket)
  src/component_a/transmitter.rs  (Transmitter::transmit)
  src/component_b/feedback.rs     (FeedbackLoop::emit, Feedback, FeedbackKind)
  src/component_b/controller.rs   (Controller::apply_to_actuator)
  src/component_b/multi_actuator.rs (spawn_actuator_thread worker loop)
  src/utils/metrics.rs            (Metrics, record_deadline_miss, push_capped)

Rust f64 values are modelled as rationals (ℚ); instants and microsecond /
nanosecond durations as naturals (ℕ).  Nondeterministic environment inputs
(wake-up lateness, noise, try_send outcomes, clock reads) are passed as
explicit parameters.
-/

/-! ## Sensor data model (sensor.rs) -/

/-- Closed variant set of sensors, from sensor.rs. -/
inductive SensorType
  | Force
  | Position
  | Temperature
deriving DecidableEq, Repr

/-- Sensor display name, from SensorType::name in sensor.rs. -/
def SensorType.name (t : SensorType) : String :=
  match t with
  | SensorType.Force => "Force"
  | SensorType.Position => "Position"
  | SensorType.Temperature => "Temperature"

/-- Raw sample produced by a sensor task, from struct SensorData in sensor.rs. -/
structure SensorData where
  timestamp : ℕ
  reading : ℚ
  sensor_type : SensorType
  seq : ℕ
deriving DecidableEq, Repr

/-- Filtered packet produced by the processor, from struct ProcessedPacket in
processor.rs. -/
structure ProcessedPacket where
  sensor_type : SensorType
  filtered : ℚ
  raw : ℚ
  timestamp : ℕ
  seq : ℕ
deriving DecidableEq, Repr

/-! ## Lifecycle events (utils/metrics.rs, enum Event) -/

/-- Lifecycle event emitted to the event recorder, from enum Event in
utils/metrics.rs.  Field order follows the Rust declaration. -/
inductive Event
  | SensorRelease (seq : ℕ) (ts_ns : ℕ) (sensor_type : String)
  | SensorProcessed (seq : ℕ) (ts_ns : ℕ) (filtered_value : ℚ) (is_anomaly : Bool)
  | SensorSent (seq : ℕ) (ts_ns : ℕ) (enqueued : Bool) (queue_len : ℕ)
  | ActuatorReceive (seq : ℕ) (ts_ns : ℕ)
  | ControllerComplete (seq : ℕ) (ts_ns : ℕ) (control_output : ℚ) (exec_us : ℕ)
  | FeedbackSent (seq : ℕ) (ts_ns : ℕ)
  | FeedbackReceived (seq : ℕ) (ts_ns : ℕ)
deriving DecidableEq, Repr

/-! ## Feedback messages (component_b/feedback.rs) -/

/-- Code of the unstable-sensor error, emitted by Controller::handle_packet. -/
def CODE_UNSTABLE : String := "unstable_sensor"

/-- Code of the deadline-miss error, emitted by the actuator paths. -/
def CODE_DEADLINE_MISS : String := "deadline_miss"

/-- Code of the feedback-deadline-miss error, set by FeedbackLoop::emit. -/
def CODE_FB_DEADLINE_MISS : String := "feedback_deadline_miss"

/-- Code of the PID-reconfiguration failure, emitted by Controller::handle_packet. -/
def CODE_PID_CONFIG_FAILED : String := "pid_config_failed"

/-- Feedback message kind, from enum FeedbackKind in feedback.rs
(Ack, ActuatorState(f64), Error(&'static str)). -/
inductive FeedbackKind
  | Ack
  | ActuatorState (state : ℚ)
  | Error (code : String)
deriving DecidableEq, Repr

/-- Feedback message, from struct Feedback in feedback.rs. -/
structure Feedback where
  actuator : String
  kind : FeedbackKind
  timestamp : ℕ
  seq : ℕ
deriving DecidableEq, Repr

/-! ## Feedback drain at the top of a processor cycle (processor.rs lines 94-120)

Processor::run matches each drained message and mutates anomaly_threshold:
Error("unstable_sensor") multiplies by 1.1, Error("deadline_miss") by 0.95,
Ack by 0.999 when the threshold exceeds 1.5, everything else is a no-op. -/

/-- Threshold mutation applied for one drained feedback message,
translated from the match in Processor::run (processor.rs lines 94-120). -/
def applyFeedback (threshold : ℚ) (fb : FeedbackKind) : ℚ :=
  match fb with
  | FeedbackKind.Error code =>
      if code = CODE_UNSTABLE then threshold * 1.1
      else if code = CODE_DEADLINE_MISS then threshold * 0.95
      else threshold
  | FeedbackKind.Ack =>
      if threshold > 1.5 then threshold * 0.999 else threshold
  | FeedbackKind.ActuatorState _ => threshold

/-- Threshold after the processor drains a whole sequence of feedback
messages (the while-let loop over feedback_rx.try_recv()). -/
def drainFeedback (threshold : ℚ) (msgs : List FeedbackKind) : ℚ :=
  msgs.foldl applyFeedback threshold

/-- Number of unstable_sensor error messages in a drained sequence. -/
def countUnstable (msgs : List FeedbackKind) : ℕ :=
  msgs.countP (fun fb => decide (fb = FeedbackKind.Error CODE_UNSTABLE))

/-- Number of deadline_miss error messages in a drained sequence. -/
def countMiss (msgs : List FeedbackKind) : ℕ :=
  msgs.countP (fun fb => decide (fb = FeedbackKind.Error CODE_DEADLINE_MISS))

/-- Number of Ack messages in a drained sequence. -/
def countAck (msgs : List FeedbackKind) : ℕ :=
  msgs.countP (fun fb => decide (fb = FeedbackKind.Ack))

/-! ## Metrics buffer (utils/metrics.rs) -/

/-- Ring capacity, from MAX_POINTS in utils/metrics.rs. -/
def MAX_POINTS : ℕ := 1000

/-- Bounded append for f64 rings, from push_capped in utils/metrics.rs:
when the ring already holds MAX_POINTS entries the oldest is popped from
the front, then the value is appended at the back. -/
def push_capped (buf : List ℚ) (val : ℚ) : List ℚ :=
  (if MAX_POINTS ≤ buf.length then buf.drop 1 else buf) ++ [val]

/-- Bounded append for u64 rings, from push_capped_u64 in utils/metrics.rs. -/
def push_capped_u64 (buf : List ℕ) (val : ℕ) : List ℕ :=
  (if MAX_POINTS ≤ buf.length then buf.drop 1 else buf) ++ [val]

/-- Live dashboard metrics aggregate, from struct Metrics in utils/metrics.rs.
VecDeque rings are modelled as lists with the front at the head. -/
structure Metrics where
  force : List ℚ
  position : List ℚ
  temperature : List ℚ
  gripper : List ℚ
  motor : List ℚ
  stabiliser : List ℚ
  latency_us : List ℕ
  jitter_us : List ℕ
  miss_sensor : ℕ
  miss_processor : ℕ
  miss_actuator : ℕ
  deadline_miss : ℕ
  total_cycles : ℕ
  cpu_load_threads : ℕ
deriving DecidableEq, Repr

/-- Default (all-empty, all-zero) metrics state, from derive(Default) on
struct Metrics. -/
def Metrics.empty : Metrics :=
  { force := [], position := [], temperature := [],
    gripper := [], motor := [], stabiliser := [],
    latency_us := [], jitter_us := [],
    miss_sensor := 0, miss_processor := 0, miss_actuator := 0,
    deadline_miss := 0, total_cycles := 0, cpu_load_threads := 0 }

/-- Component tag for deadline-miss attribution, from enum DeadlineComponent
in utils/metrics.rs. -/
inductive DeadlineComponent
  | Sensor
  | Processor
  | Actuator
deriving DecidableEq, Repr

/-- Per-component and aggregate deadline-miss accounting, from
Metrics::record_deadline_miss in utils/metrics.rs (lines 221-231). -/
def Metrics.record_deadline_miss (m : Metrics) (c : DeadlineComponent) : Metrics :=
  let m1 :=
    match c with
    | DeadlineComponent.Sensor => { m with miss_sensor := m.miss_sensor + 1 }
    | DeadlineComponent.Processor => { m with miss_processor := m.miss_processor + 1 }
    | DeadlineComponent.Actuator => { m with miss_actuator := m.miss_actuator + 1 }
  { m1 with deadline_miss := m1.deadline_miss + 1 }

/-- Every mutation of the Metrics aggregate found in the code base:
record_deadline_miss (sensor.rs, processor.rs, multi_actuator.rs,
advanced/async_sensor.rs, advanced/async_processor.rs), the ring pushes in
sensor.rs / processor.rs / receiver.rs / controller.rs / multi_actuator.rs,
the total_cycles increment in Processor::update_metrics, and the
cpu_load_threads assignment at startup.  All other code only reads. -/
inductive MetricsOp
  | recordDeadlineMiss (c : DeadlineComponent)
  | pushForce (v : ℚ)
  | pushPosition (v : ℚ)
  | pushTemperature (v : ℚ)
  | pushGripper (v : ℚ)
  | pushMotor (v : ℚ)
  | pushStabiliser (v : ℚ)
  | pushLatency (v : ℕ)
  | pushJitter (v : ℕ)
  | incTotalCycles
  | setCpuLoadThreads (n : ℕ)

/-- Effect of one Metrics mutation on the aggregate. -/
def applyMetricsOp (m : Metrics) (op : MetricsOp) : Metrics :=
  match op with
  | MetricsOp.recordDeadlineMiss c => m.record_deadline_miss c
  | MetricsOp.pushForce v => { m with force := push_capped m.force v }
  | MetricsOp.pushPosition v => { m with position := push_capped m.position v }
  | MetricsOp.pushTemperature v => { m with temperature := push_capped m.temperature v }
  | MetricsOp.pushGripper v => { m with gripper := push_capped m.gripper v }
  | MetricsOp.pushMotor v => { m with motor := push_capped m.motor v }
  | MetricsOp.pushStabiliser v => { m with stabiliser := push_capped m.stabiliser v }
  | MetricsOp.pushLatency v => { m with latency_us := push_capped_u64 m.latency_us v }
  | MetricsOp.pushJitter v => { m with jitter_us := push_capped_u64 m.jitter_us v }
  | MetricsOp.incTotalCycles => { m with total_cycles := m.total_cycles + 1 }
  | MetricsOp.setCpuLoadThreads n => { m with cpu_load_threads := n }

/-- Metrics state after a finite sequence of mutations (C3 is serialized by a
single mutex, so any interleaving is some sequence). -/
def runMetricsOps (m : Metrics) (ops : List MetricsOp) : Metrics :=
  ops.foldl applyMetricsOp m

/-- Predicate: every ring of the aggregate holds at most MAX_POINTS entries. -/
def ringsBounded (m : Metrics) : Prop :=
  m.force.length ≤ MAX_POINTS ∧ m.position.length ≤ MAX_POINTS ∧
  m.temperature.length ≤ MAX_POINTS ∧ m.gripper.length ≤ MAX_POINTS ∧
  m.motor.length ≤ MAX_POINTS ∧ m.stabiliser.length ≤ MAX_POINTS ∧
  m.latency_us.length ≤ MAX_POINTS ∧ m.jitter_us.length ≤ MAX_POINTS

/-! ## Transmitter (component_a/transmitter.rs) -/

/-- Threshold passed to Transmitter::new in main.rs (line 305). -/
def TRANSMITTER_MAX_QUEUED : ℕ := 1024

/-- Bounded crossbeam channel, sending side: a FIFO queue with a capacity and
a connected flag.  try_send succeeds exactly when the channel is connected
and not full; it never blocks. -/
structure TxChannel where
  queue : List ProcessedPacket
  capacity : ℕ
  connected : Bool
deriving DecidableEq, Repr

/-- Non-blocking send on a bounded channel (crossbeam try_send semantics):
returns the updated channel and whether the packet was enqueued. -/
def TxChannel.try_send (ch : TxChannel) (p : ProcessedPacket) : TxChannel × Bool :=
  if ch.connected = true ∧ ch.queue.length < ch.capacity then
    ({ ch with queue := ch.queue ++ [p] }, true)
  else
    (ch, false)

/-- Transmitter state: the processor→actuator channel, the configured
drop threshold, and the tx-drop counter the sync manager accumulates
(SyncManager::record_tx_drop). -/
structure TransmitterState where
  ch : TxChannel
  max_queued : ℕ
  tx_drops : ℕ
deriving DecidableEq, Repr

/-- Translated from Transmitter::transmit (transmitter.rs lines 32-45):
fast-path drop when the queue length already reaches max_queued, otherwise a
non-blocking try_send whose failure is counted as a tx-drop.  Total function:
it never waits and returns no error. -/
def transmit (st : TransmitterState) (packet : ProcessedPacket) : TransmitterState :=
  if st.max_queued ≤ st.ch.queue.length then
    { st with tx_drops := st.tx_drops + 1 }
  else
    let res := st.ch.try_send packet
    if res.2 = true then { st with ch := res.1 }
    else { st with ch := res.1, tx_drops := st.tx_drops + 1 }

/-! ## Feedback emission (component_b/feedback.rs, FeedbackLoop::emit)

FeedbackLoop::emit computes elapsed_us from the actuation-start instant,
overrides the intended kind with Error("feedback_deadline_miss") when the
budget of 500 µs is exceeded, records a FeedbackSent event carrying seq = 0,
and try_sends the message.  Clock reads (elapsed_us, the send timestamp and
the event timestamp) are parameters here. -/

/-- Feedback message built by FeedbackLoop::emit (feedback.rs lines 52-95). -/
def emitFeedbackMsg (actuator : String) (kind : FeedbackKind)
    (elapsed_us : ℕ) (send_ts : ℕ) : Feedback :=
  let seq : ℕ := 0
  if elapsed_us > 500 then
    { actuator := actuator, kind := FeedbackKind.Error CODE_FB_DEADLINE_MISS,
      timestamp := send_ts, seq := seq }
  else
    { actuator := actuator, kind := kind, timestamp := send_ts, seq := seq }

/-- FeedbackSent event recorded by FeedbackLoop::emit (the T5 record). -/
def emitFeedbackEvent (t5_ns : ℕ) : Event :=
  Event.FeedbackSent 0 t5_ns

/-! ## Controller and actuator workers
(component_b/controller.rs, component_b/multi_actuator.rs) -/

/-- Actuator identity, from enum ActuatorType in multi_actuator.rs. -/
inductive ActuatorType
  | Gripper
  | Motor
  | Stabiliser
deriving DecidableEq, Repr

/-- Translated from Controller::apply_to_actuator (controller.rs lines
178-190): integrate the control signal into the actuator state, then push
the new state into the gripper ring and into the motor ring of the shared
metrics.  Returns the new state and the updated metrics. -/
def apply_to_actuator (actuator_state : ℚ) (control_signal : ℚ) (m : Metrics) :
    ℚ × Metrics :=
  let newState := actuator_state + control_signal
  (newState,
   { m with gripper := push_capped m.gripper newState,
            motor := push_capped m.motor newState })

/-- Per-kind ring push done by the actuator worker loop after
controller.handle_packet returns (multi_actuator.rs lines 140-144). -/
def workerPushState (a : ActuatorType) (state : ℚ) (m : Metrics) : Metrics :=
  match a with
  | ActuatorType.Gripper => { m with gripper := push_capped m.gripper state }
  | ActuatorType.Motor => { m with motor := push_capped m.motor state }
  | ActuatorType.Stabiliser => { m with stabiliser := push_capped m.stabiliser state }

/-- Ring effect of one actuator-worker cycle on the metrics: handle_packet's
apply_to_actuator step followed by the worker's own per-kind push
(multi_actuator.rs lines 127-145; the deadline branch touches only the miss
counters, never the rings). -/
def actuatorCycleRings (a : ActuatorType) (actuator_state control_signal : ℚ)
    (m : Metrics) : ℚ × Metrics :=
  let res := apply_to_actuator actuator_state control_signal m
  (res.1, workerPushState a res.1 res.2)

/-! ## Sensor task loop (component_a/sensor.rs, Sensor::run)

The loop body is modelled per iteration over an environment record carrying
the nondeterministic inputs of that iteration: whether the wake came late,
the clock reads, the noisy reading, and whether try_send succeeded.  seq
starts at 1 and the loop ends with seq += 1, executed on every iteration
whether or not the enqueue succeeded. -/

/-- Nondeterministic per-iteration inputs of Sensor::run. -/
structure SensorIterEnv where
  lateWake : Bool
  t0_ns : ℕ
  t2_ns : ℕ
  tick_ts : ℕ
  reading : ℚ
  sendOk : Bool
  queue_len : ℕ
deriving Repr

/-- Events emitted by one iteration of Sensor::run at a given seq: the
SensorRelease record at T0 and the SensorSent record at T2 (sensor.rs lines
136-141 and 187-194).  Both carry the iteration's seq unchanged. -/
def sensorIterEvents (st : SensorType) (seq : ℕ) (env : SensorIterEnv) : List Event :=
  [Event.SensorRelease seq env.t0_ns (SensorType.name st),
   Event.SensorSent seq env.t2_ns env.sendOk env.queue_len]

/-- Sample built by one iteration of Sensor::run (sensor.rs lines 161-166). -/
def sensorIterData (st : SensorType) (seq : ℕ) (env : SensorIterEnv) : SensorData :=
  { timestamp := env.tick_ts, reading := env.reading,
    sensor_type := st, seq := seq }

/-- Events of Sensor::run from a given seq over the remaining iterations;
seq += 1 once per iteration (sensor.rs line 219). -/
def sensorRunEventsFrom (st : SensorType) : ℕ → List SensorIterEnv → List Event
  | _, [] => []
  | seq, env :: rest =>
      sensorIterEvents st seq env ++ sensorRunEventsFrom st (seq + 1) rest

/-- Events of a whole run of Sensor::run; seq starts at 1 (sensor.rs line 105). -/
def sensorRunEvents (st : SensorType) (envs : List SensorIterEnv) : List Event :=
  sensorRunEventsFrom st 1 envs

/-- Seq values of the SensorRelease events in an event list. -/
def releaseSeqs (evs : List Event) : List ℕ :=
  evs.filterMap (fun e =>
    match e with
    | Event.SensorRelease seq _ _ => some seq
    | _ => none)

/-! ## Processor cycle artifacts (component_a/processor.rs, receiver.rs,
controller.rs): each downstream artifact copies the seq of the SensorData
or ProcessedPacket it is built from. -/

/-- ProcessedPacket built in Processor::run (processor.rs lines 154-160). -/
def processorPacket (data : SensorData) (cycle_start : ℕ) (avg : ℚ) :
    ProcessedPacket :=
  { sensor_type := data.sensor_type, filtered := avg, raw := data.reading,
    timestamp := cycle_start, seq := data.seq }

/-- SensorProcessed event recorded in Processor::run (processor.rs lines
146-151). -/
def processorProcessedEvent (data : SensorData) (t1_ns : ℕ) (avg : ℚ)
    (anom : Bool) : Event :=
  Event.SensorProcessed data.seq t1_ns avg anom

/-- ActuatorReceive event recorded by Receiving::run (receiver.rs lines 62-66). -/
def receiverReceiveEvent (pkt : ProcessedPacket) (t3_ns : ℕ) : Event :=
  Event.ActuatorReceive pkt.seq t3_ns

/-- ControllerComplete event recorded by Controller::handle_packet
(controller.rs lines 142-148). -/
def controllerCompleteEvent (pkt : ProcessedPacket) (t4_ns : ℕ)
    (control_output : ℚ) (exec_us : ℕ) : Event :=
  Event.ControllerComplete pkt.seq t4_ns control_output exec_us

/-! ## Moving-average filter and anomaly detection
(component_a/processor.rs, Processor::process_data, lines 187-232)

process_data pushes the reading at the back of the kind's window, pops the
front when the window exceeds window_size, returns (reading, false) on an
empty window, and otherwise returns the window mean together with the
anomaly flag |reading - avg| > threshold * std_dev, where std_dev is the
square root of the population variance of the window.  The window update
and the mean are exact rational computations; the anomaly flag needs a real
square root and is therefore modelled as a proposition over ℝ. -/

/-- Window update of process_data: push_back, then pop_front when the length
exceeds window_size (processor.rs lines 193-198). -/
def updateWindow (window_size : ℕ) (buf : List ℚ) (reading : ℚ) : List ℚ :=
  let buf1 := buf ++ [reading]
  if window_size < buf1.length then buf1.drop 1 else buf1

/-- Arithmetic mean of a window (processor.rs line 204). -/
def movingAvg (buf : List ℚ) : ℚ :=
  buf.sum / buf.length

/-- Population variance of a window (processor.rs line 227). -/
def windowVariance (buf : List ℚ) : ℚ :=
  ((buf.map (fun v => (v - movingAvg buf) ^ 2)).sum) / buf.length

/-- First returned component of process_data: the filtered value, which is
the reading itself when the updated window is empty and the window mean
otherwise (processor.rs lines 200-204). -/
def processAvg (window_size : ℕ) (buf : List ℚ) (reading : ℚ) : ℚ :=
  let b := updateWindow window_size buf reading
  if b = [] then reading else movingAvg b

/-- Second returned component of process_data: the anomaly flag
|reading - avg| > threshold * std_dev, false on an empty window
(processor.rs lines 200-201 and 226-229). -/
def processIsAnomaly (window_size : ℕ) (threshold : ℚ) (buf : List ℚ)
    (reading : ℚ) : Prop :=
  let b := updateWindow window_size buf reading
  if b = [] then False
  else |(reading : ℝ) - ((movingAvg b : ℚ) : ℝ)| >
    (threshold : ℝ) * Real.sqrt ((windowVariance b : ℚ) : ℝ)

/-! ## Remaining helper definitions used by the verification statements -/

/-- Worker thread name of the gripper actuator, from MultiActuator::new. -/
def GRIPPER_NAME : String := "Gripper"

/-- Seq field carried by any lifecycle event. -/
def Event.seqOf (e : Event) : ℕ :=
  match e with
  | Event.SensorRelease seq _ _ => seq
  | Event.SensorProcessed seq _ _ _ => seq
  | Event.SensorSent seq _ _ _ => seq
  | Event.ActuatorReceive seq _ => seq
  | Event.ControllerComplete seq _ _ _ => seq
  | Event.FeedbackSent seq _ => seq
  | Event.FeedbackReceived seq _ => seq

/-- Per-message upper-bound factor on the threshold mutation: 1.1 for an
unstable_sensor error, 0.95 for a deadline_miss error, 1 for everything
else (an Ack multiplies by 0.999 or leaves the value unchanged, both ≤ 1). -/
def boundFactor (fb : FeedbackKind) : ℚ :=
  if fb = FeedbackKind.Error CODE_UNSTABLE then 1.1
  else if fb = FeedbackKind.Error CODE_DEADLINE_MISS then 0.95
  else 1

/-! # Theorems -/

/-- C2: for every FeedbackMsg drained by the processor at the top of a cycle,
Error("unstable_sensor") multiplies the anomaly threshold by 1.1,
Error("deadline_miss") multiplies it by 0.95, Ack multiplies it by 0.999
exactly when the current threshold exceeds 1.5, and every other kind
(ActuatorState, other error codes) leaves it unchanged. -/
theorem C2_feedback_threshold_update (t : ℚ) :
    applyFeedback t (FeedbackKind.Error CODE_UNSTABLE) = t * 1.1 ∧
    applyFeedback t (FeedbackKind.Error CODE_DEADLINE_MISS) = t * 0.95 ∧
    (1.5 < t → applyFeedback t FeedbackKind.Ack = t * 0.999) ∧
    (t ≤ 1.5 → applyFeedback t FeedbackKind.Ack = t) ∧
    (∀ v : ℚ, applyFeedback t (FeedbackKind.ActuatorState v) = t) ∧
    (∀ code : String, code ≠ CODE_UNSTABLE → code ≠ CODE_DEADLINE_MISS →
        applyFeedback t (FeedbackKind.Error code) = t) := by
  refine ⟨?_, ?_, ?_, ?_, ?_, ?_⟩
  · simp [applyFeedback]
  · simp [applyFeedback, CODE_DEADLINE_MISS, CODE_UNSTABLE]
  · intro h
    simp [applyFeedback, h]
  · intro h
    have h2 : ¬ (1.5 < t) := not_lt.mpr h
    simp [applyFeedback, h2]
  · intro v
    simp [applyFeedback]
  · intro code h1 h2
    simp [applyFeedback, h1, h2]

/-- Witness for C2 at concrete thresholds 2 and 1 and concrete codes. -/
theorem C2_feedback_threshold_update_witness :
    applyFeedback 2 (FeedbackKind.Error CODE_UNSTABLE) = 2 * 1.1 ∧
    applyFeedback 2 (FeedbackKind.Error CODE_DEADLINE_MISS) = 2 * 0.95 ∧
    applyFeedback 2 FeedbackKind.Ack = 2 * 0.999 ∧
    applyFeedback 1 FeedbackKind.Ack = 1 ∧
    applyFeedback 2 (FeedbackKind.ActuatorState 7) = 2 ∧
    applyFeedback 2 (FeedbackKind.Error CODE_PID_CONFIG_FAILED) = 2 :=
  ⟨(C2_feedback_threshold_update 2).1,
   (C2_feedback_threshold_update 2).2.1,
   (C2_feedback_threshold_update 2).2.2.1 (by norm_num),
   (C2_feedback_threshold_update 1).2.2.2.1 (by norm_num),
   (C2_feedback_threshold_update 2).2.2.2.2.1 7,
   (C2_feedback_threshold_update 2).2.2.2.2.2 CODE_PID_CONFIG_FAILED
     (by decide) (by decide)⟩

/-- C5: for every call to FeedbackLoop::emit, when the elapsed time from the
actuation-start instant exceeds 500 µs the sent message has kind
Error("feedback_deadline_miss"); otherwise it has exactly the intended kind. -/
theorem C5_feedback_deadline_override (actuator : String) (kind : FeedbackKind)
    (elapsed_us send_ts : ℕ) :
    (500 < elapsed_us →
        (emitFeedbackMsg actuator kind elapsed_us send_ts).kind =
          FeedbackKind.Error CODE_FB_DEADLINE_MISS) ∧
    (elapsed_us ≤ 500 →
        (emitFeedbackMsg actuator kind elapsed_us send_ts).kind = kind) := by
  constructor
  · intro h
    simp [emitFeedbackMsg, h]
  · intro h
    have h2 : ¬ (elapsed_us > 500) := by omega
    simp [emitFeedbackMsg, h2]

/-- Witness for C5 on both sides of the 500 µs budget. -/
theorem C5_feedback_deadline_override_witness :
    (emitFeedbackMsg GRIPPER_NAME FeedbackKind.Ack 501 0).kind =
      FeedbackKind.Error CODE_FB_DEADLINE_MISS ∧
    (emitFeedbackMsg GRIPPER_NAME FeedbackKind.Ack 500 0).kind =
      FeedbackKind.Ack :=
  ⟨(C5_feedback_deadline_override GRIPPER_NAME FeedbackKind.Ack 501 0).1
     (by norm_num),
   (C5_feedback_deadline_override GRIPPER_NAME FeedbackKind.Ack 500 0).2
     (by norm_num)⟩

/-- C10: every Feedback message produced by FeedbackLoop::emit and every
FeedbackSent event it records carries seq = 0, for all callers, intended
kinds and clock readings. -/
theorem C10_feedback_seq_always_zero (actuator : String) (kind : FeedbackKind)
    (elapsed_us send_ts t5_ns : ℕ) :
    (emitFeedbackMsg actuator kind elapsed_us send_ts).seq = 0 ∧
    (emitFeedbackEvent t5_ns).seqOf = 0 := by
  constructor
  · by_cases h : elapsed_us > 500 <;> simp [emitFeedbackMsg, h]
  · rfl

/-- C3 (evaluation at the failing input): one cycle of the Gripper worker
with state 0 and control signal 1 on empty metrics pushes the new state into
the gripper ring twice and into the motor ring once; the claim says only the
gripper ring changes. -/
theorem C3_gripper_cycle_touches_motor_ring :
    ((actuatorCycleRings ActuatorType.Gripper 0 1 Metrics.empty).2).gripper = [1, 1] ∧
    ((actuatorCycleRings ActuatorType.Gripper 0 1 Metrics.empty).2).motor = [1] ∧
    ((actuatorCycleRings ActuatorType.Gripper 0 1 Metrics.empty).2).stabiliser = [] := by
  refine ⟨?_, ?_, ?_⟩ <;>
    simp [actuatorCycleRings, apply_to_actuator, workerPushState, push_capped,
      Metrics.empty, MAX_POINTS]

/-- C6: Transmitter::transmit drops with a counter when the queue length has
already reached the configured threshold (1024 in main.rs), otherwise
attempts a non-blocking enqueue and counts a drop on failure; it is a total
function of the state (it never waits and returns no error). -/
theorem C6_transmit_backpressure (st : TransmitterState) (packet : ProcessedPacket) :
    (st.max_queued ≤ st.ch.queue.length →
        transmit st packet = { st with tx_drops := st.tx_drops + 1 }) ∧
    (st.ch.queue.length < st.max_queued →
        ((st.ch.try_send packet).2 = true →
            (transmit st packet).ch.queue = st.ch.queue ++ [packet] ∧
            (transmit st packet).tx_drops = st.tx_drops) ∧
        ((st.ch.try_send packet).2 = false →
            (transmit st packet).ch.queue = st.ch.queue ∧
            (transmit st packet).tx_drops = st.tx_drops + 1)) ∧
    TRANSMITTER_MAX_QUEUED = 1024 := by
  refine ⟨?_, ?_, rfl⟩
  · intro h
    simp [transmit, h]
  · intro h
    have hn : ¬ (st.max_queued ≤ st.ch.queue.length) := by omega
    by_cases hc : st.ch.connected = true ∧ st.ch.queue.length < st.ch.capacity
    · constructor
      · intro _
        simp [transmit, hn, TxChannel.try_send, hc]
      · intro hfail
        exfalso
        simp [TxChannel.try_send, hc] at hfail
    · constructor
      · intro hok
        exfalso
        simp [TxChannel.try_send, hc] at hok
      · intro _
        simp [transmit, hn, TxChannel.try_send, hc]

/-- Witness for C6: a saturated state drops and leaves the queue alone, an
unsaturated connected state enqueues without counting a drop. -/
theorem C6_transmit_backpressure_witness :
    transmit
        { ch := { queue := [], capacity := 4, connected := true },
          max_queued := 0, tx_drops := 0 }
        { sensor_type := SensorType.Force, filtered := 1, raw := 1,
          timestamp := 0, seq := 1 } =
      { ch := { queue := [], capacity := 4, connected := true },
        max_queued := 0, tx_drops := 1 } ∧
    (transmit
        { ch := { queue := [], capacity := 4, connected := true },
          max_queued := 1024, tx_drops := 0 }
        { sensor_type := SensorType.Force, filtered := 1, raw := 1,
          timestamp := 0, seq := 1 }).ch.queue =
      [{ sensor_type := SensorType.Force, filtered := 1, raw := 1,
         timestamp := 0, seq := 1 }] ∧
    (transmit
        { ch := { queue := [], capacity := 4, connected := true },
          max_queued := 1024, tx_drops := 0 }
        { sensor_type := SensorType.Force, filtered := 1, raw := 1,
          timestamp := 0, seq := 1 }).tx_drops = 0 := by
  refine ⟨?_, ?_, ?_⟩
  · exact (C6_transmit_backpressure
      { ch := { queue := [], capacity := 4, connected := true },
        max_queued := 0, tx_drops := 0 }
      { sensor_type := SensorType.Force, filtered := 1, raw := 1,
        timestamp := 0, seq := 1 }).1 (by simp)
  · exact ((C6_transmit_backpressure
      { ch := { queue := [], capacity := 4, connected := true },
        max_queued := 1024, tx_drops := 0 }
      { sensor_type := SensorType.Force, filtered := 1, raw := 1,
        timestamp := 0, seq := 1 }).2.1 (by simp)).1 (by decide) |>.1
  · exact ((C6_transmit_backpressure
      { ch := { queue := [], capacity := 4, connected := true },
        max_queued := 1024, tx_drops := 0 }
      { sensor_type := SensorType.Force, filtered := 1, raw := 1,
        timestamp := 0, seq := 1 }).2.1 (by simp)).1 (by decide) |>.2

/-- Helper: one Metrics mutation preserves the deadline-miss sum identity. -/
theorem applyMetricsOp_preserves_missSum (m : Metrics) (op : MetricsOp)
    (h : m.deadline_miss = m.miss_sensor + m.miss_processor + m.miss_actuator) :
    (applyMetricsOp m op).deadline_miss =
      (applyMetricsOp m op).miss_sensor + (applyMetricsOp m op).miss_processor +
        (applyMetricsOp m op).miss_actuator := by
  cases op with
  | recordDeadlineMiss c =>
      cases c <;> simp [applyMetricsOp, Metrics.record_deadline_miss] <;> omega
  | _ => simpa [applyMetricsOp] using h

/-- Helper: any sequence of Metrics mutations preserves the deadline-miss
sum identity. -/
theorem runMetricsOps_preserves_missSum (ops : List MetricsOp) :
    ∀ m : Metrics,
      m.deadline_miss = m.miss_sensor + m.miss_processor + m.miss_actuator →
      (runMetricsOps m ops).deadline_miss =
        (runMetricsOps m ops).miss_sensor + (runMetricsOps m ops).miss_processor +
          (runMetricsOps m ops).miss_actuator := by
  induction ops with
  | nil => intro m h; exact h
  | cons op rest ih =>
      intro m h
      exact ih (applyMetricsOp m op) (applyMetricsOp_preserves_missSum m op h)

/-- C7: for every reachable Metrics state, deadline_miss equals
miss_sensor + miss_processor + miss_actuator; each record_deadline_miss call
adds one to exactly one per-component counter and one to the aggregate, and
no other Metrics operation changes any of these counters. -/
theorem C7_deadline_miss_sum (ops : List MetricsOp) :
    ((runMetricsOps Metrics.empty ops).deadline_miss =
       (runMetricsOps Metrics.empty ops).miss_sensor +
         (runMetricsOps Metrics.empty ops).miss_processor +
           (runMetricsOps Metrics.empty ops).miss_actuator) ∧
    (∀ m : Metrics, ∀ c : DeadlineComponent,
        (m.record_deadline_miss c).miss_sensor +
            (m.record_deadline_miss c).miss_processor +
              (m.record_deadline_miss c).miss_actuator =
          m.miss_sensor + m.miss_processor + m.miss_actuator + 1 ∧
        (m.record_deadline_miss c).deadline_miss = m.deadline_miss + 1) ∧
    (∀ m : Metrics, ∀ op : MetricsOp,
        (∀ c : DeadlineComponent, op ≠ MetricsOp.recordDeadlineMiss c) →
        (applyMetricsOp m op).miss_sensor = m.miss_sensor ∧
        (applyMetricsOp m op).miss_processor = m.miss_processor ∧
        (applyMetricsOp m op).miss_actuator = m.miss_actuator ∧
        (applyMetricsOp m op).deadline_miss = m.deadline_miss) := by
  refine ⟨runMetricsOps_preserves_missSum ops Metrics.empty rfl, ?_, ?_⟩
  · intro m c
    cases c <;> simp [Metrics.record_deadline_miss] <;> omega
  · intro m op hne
    cases op with
    | recordDeadlineMiss c => exact absurd rfl (hne c)
    | _ => simp [applyMetricsOp]

/-- Witness for C7 at a concrete operation sequence and a concrete
non-miss operation. -/
theorem C7_deadline_miss_sum_witness :
    ((runMetricsOps Metrics.empty
        [MetricsOp.recordDeadlineMiss DeadlineComponent.Sensor,
         MetricsOp.incTotalCycles,
         MetricsOp.recordDeadlineMiss DeadlineComponent.Actuator]).deadline_miss =
      (runMetricsOps Metrics.empty
        [MetricsOp.recordDeadlineMiss DeadlineComponent.Sensor,
         MetricsOp.incTotalCycles,
         MetricsOp.recordDeadlineMiss DeadlineComponent.Actuator]).miss_sensor +
        (runMetricsOps Metrics.empty
          [MetricsOp.recordDeadlineMiss DeadlineComponent.Sensor,
           MetricsOp.incTotalCycles,
           MetricsOp.recordDeadlineMiss DeadlineComponent.Actuator]).miss_processor +
          (runMetricsOps Metrics.empty
            [MetricsOp.recordDeadlineMiss DeadlineComponent.Sensor,
             MetricsOp.incTotalCycles,
             MetricsOp.recordDeadlineMiss DeadlineComponent.Actuator]).miss_actuator) ∧
    (applyMetricsOp Metrics.empty (MetricsOp.pushJitter 3)).deadline_miss =
      Metrics.empty.deadline_miss :=
  ⟨(C7_deadline_miss_sum
      [MetricsOp.recordDeadlineMiss DeadlineComponent.Sensor,
       MetricsOp.incTotalCycles,
       MetricsOp.recordDeadlineMiss DeadlineComponent.Actuator]).1,
   ((C7_deadline_miss_sum []).2.2 Metrics.empty (MetricsOp.pushJitter 3)
      (fun c h => MetricsOp.noConfusion h)).2.2.2⟩

/-- Helper: push_capped preserves the MAX_POINTS bound on an f64 ring. -/
theorem push_capped_length_le (buf : List ℚ) (v : ℚ)
    (h : buf.length ≤ MAX_POINTS) :
    (push_capped buf v).length ≤ MAX_POINTS := by
  unfold push_capped
  split <;> simp_all [MAX_POINTS] <;> omega

/-- Helper: push_capped_u64 preserves the MAX_POINTS bound on a u64 ring. -/
theorem push_capped_u64_length_le (buf : List ℕ) (v : ℕ)
    (h : buf.length ≤ MAX_POINTS) :
    (push_capped_u64 buf v).length ≤ MAX_POINTS := by
  unfold push_capped_u64
  split <;> simp_all [MAX_POINTS] <;> omega

/-- Helper: one Metrics mutation keeps every ring within MAX_POINTS. -/
theorem applyMetricsOp_preserves_ringsBounded (m : Metrics) (op : MetricsOp)
    (h : ringsBounded m) : ringsBounded (applyMetricsOp m op) := by
  obtain ⟨h1, h2, h3, h4, h5, h6, h7, h8⟩ := h
  cases op with
  | recordDeadlineMiss c =>
      cases c <;>
        exact ⟨h1, h2, h3, h4, h5, h6, h7, h8⟩
  | pushForce v =>
      exact ⟨push_capped_length_le _ v h1, h2, h3, h4, h5, h6, h7, h8⟩
  | pushPosition v =>
      exact ⟨h1, push_capped_length_le _ v h2, h3, h4, h5, h6, h7, h8⟩
  | pushTemperature v =>
      exact ⟨h1, h2, push_capped_length_le _ v h3, h4, h5, h6, h7, h8⟩
  | pushGripper v =>
      exact ⟨h1, h2, h3, push_capped_length_le _ v h4, h5, h6, h7, h8⟩
  | pushMotor v =>
      exact ⟨h1, h2, h3, h4, push_capped_length_le _ v h5, h6, h7, h8⟩
  | pushStabiliser v =>
      exact ⟨h1, h2, h3, h4, h5, push_capped_length_le _ v h6, h7, h8⟩
  | pushLatency v =>
      exact ⟨h1, h2, h3, h4, h5, h6, push_capped_u64_length_le _ v h7, h8⟩
  | pushJitter v =>
      exact ⟨h1, h2, h3, h4, h5, h6, h7, push_capped_u64_length_le _ v h8⟩
  | incTotalCycles => exact ⟨h1, h2, h3, h4, h5, h6, h7, h8⟩
  | setCpuLoadThreads n => exact ⟨h1, h2, h3, h4, h5, h6, h7, h8⟩

/-- Helper: any sequence of Metrics mutations keeps every ring within
MAX_POINTS. -/
theorem runMetricsOps_preserves_ringsBounded (ops : List MetricsOp) :
    ∀ m : Metrics, ringsBounded m → ringsBounded (runMetricsOps m ops) := by
  induction ops with
  | nil => intro m h; exact h
  | cons op rest ih =>
      intro m h
      exact ih (applyMetricsOp m op) (applyMetricsOp_preserves_ringsBounded m op h)

/-- C9: every metrics ring has length at most 1000 after any sequence of
mutations from the empty state, and a push on a ring at capacity evicts the
oldest entry before appending the new value. -/
theorem C9_rings_capped (ops : List MetricsOp) :
    ringsBounded (runMetricsOps Metrics.empty ops) ∧
    (∀ (buf : List ℚ) (v : ℚ), buf.length = MAX_POINTS →
        push_capped buf v = buf.drop 1 ++ [v]) ∧
    (∀ (buf : List ℕ) (v : ℕ), buf.length = MAX_POINTS →
        push_capped_u64 buf v = buf.drop 1 ++ [v]) := by
  refine ⟨?_, ?_, ?_⟩
  · refine runMetricsOps_preserves_ringsBounded ops Metrics.empty ?_
    refine ⟨?_, ?_, ?_, ?_, ?_, ?_, ?_, ?_⟩ <;> simp [Metrics.empty, MAX_POINTS]
  · intro buf v h
    simp [push_capped, h]
  · intro buf v h
    simp [push_capped_u64, h]

/-- Witness for C9 at a concrete push sequence and a concrete full ring. -/
theorem C9_rings_capped_witness :
    ringsBounded (runMetricsOps Metrics.empty [MetricsOp.pushForce 1]) ∧
    push_capped (List.replicate 1000 0) 5 =
      (List.replicate 1000 0).drop 1 ++ [5] :=
  ⟨(C9_rings_capped [MetricsOp.pushForce 1]).1,
   (C9_rings_capped []).2.1 (List.replicate 1000 0) 5
     (by rw [List.length_replicate, MAX_POINTS])⟩

/-- Helper: the SensorRelease seqs emitted from a given starting seq are the
consecutive naturals starting there, one per iteration. -/
theorem releaseSeqs_sensorRunEventsFrom (st : SensorType)
    (envs : List SensorIterEnv) :
    ∀ s : ℕ, releaseSeqs (sensorRunEventsFrom st s envs) =
      List.range' s envs.length := by
  induction envs with
  | nil => intro s; rfl
  | cons env rest ih =>
      intro s
      simp [sensorRunEventsFrom, sensorIterEvents, releaseSeqs,
        List.filterMap_append, List.range'] at *
      exact ih (s + 1)

/-- C1: the seq values of the SensorRelease events of a sensor task form the
sequence 1, 2, 3, ... — one per loop iteration, whatever the enqueue
outcomes — and each downstream artifact built from a SensorData
(ProcessedPacket, SensorProcessed, ActuatorReceive, ControllerComplete)
carries the seq of that SensorData. -/
theorem C1_seq_contiguous_and_preserved :
    (∀ (st : SensorType) (envs : List SensorIterEnv),
        releaseSeqs (sensorRunEvents st envs) = List.range' 1 envs.length) ∧
    (∀ (st : SensorType) (seq : ℕ) (env : SensorIterEnv),
        (sensorIterData st seq env).seq = seq) ∧
    (∀ (data : SensorData) (cycle_start : ℕ) (avg : ℚ),
        (processorPacket data cycle_start avg).seq = data.seq) ∧
    (∀ (data : SensorData) (t1_ns : ℕ) (avg : ℚ) (anom : Bool),
        (processorProcessedEvent data t1_ns avg anom).seqOf = data.seq) ∧
    (∀ (pkt : ProcessedPacket) (t3_ns : ℕ),
        (receiverReceiveEvent pkt t3_ns).seqOf = pkt.seq) ∧
    (∀ (pkt : ProcessedPacket) (t4_ns : ℕ) (co : ℚ) (exec_us : ℕ),
        (controllerCompleteEvent pkt t4_ns co exec_us).seqOf = pkt.seq) := by
  refine ⟨?_, ?_, ?_, ?_, ?_, ?_⟩
  · intro st envs
    exact releaseSeqs_sensorRunEventsFrom st envs 1
  · intro st seq env
    rfl
  · intro data cycle_start avg
    rfl
  · intro data t1_ns avg anom
    rfl
  · intro pkt t3_ns
    rfl
  · intro pkt t4_ns co exec_us
    rfl

/-- Helper: with window size 1 and a buffer of at most one element before the
call, the updated window is exactly the singleton of the new reading. -/
theorem updateWindow_one (buf : List ℚ) (reading : ℚ)
    (h : buf.length ≤ 1) : updateWindow 1 buf reading = [reading] := by
  match buf with
  | [] => rfl
  | [a] => rfl
  | a :: b :: rest => simp at h

/-- C8: with the processor window size set to 1 and a buffer maintained
solely by process_data (hence of length at most 1 before the call), the
anomaly flag returned by process_data is false for every threshold and
every reading. -/
theorem C8_window_one_never_anomalous (threshold reading : ℚ) (buf : List ℚ)
    (h : buf.length ≤ 1) :
    ¬ processIsAnomaly 1 threshold buf reading := by
  have hb := updateWindow_one buf reading h
  have havg : movingAvg [reading] = reading := by
    simp [movingAvg]
  have hvar : windowVariance [reading] = 0 := by
    simp [windowVariance, movingAvg]
  simp [processIsAnomaly, hb, havg, hvar, Real.sqrt_zero]

/-- Witness for C8 at concrete threshold 3, empty buffer and reading 5. -/
theorem C8_window_one_never_anomalous_witness :
    ¬ processIsAnomaly 1 3 [] 5 :=
  C8_window_one_never_anomalous 3 5 [] (by simp)

/-- Helper: one feedback message keeps a positive threshold positive. -/
theorem applyFeedback_pos (t : ℚ) (fb : FeedbackKind) (ht : 0 < t) :
    0 < applyFeedback t fb := by
  cases fb with
  | Ack =>
      simp only [applyFeedback]
      split
      · exact mul_pos ht (by norm_num)
      · exact ht
  | ActuatorState v => exact ht
  | Error code =>
      simp only [applyFeedback]
      split
      · exact mul_pos ht (by norm_num)
      · split
        · exact mul_pos ht (by norm_num)
        · exact ht

/-- Helper: one feedback message multiplies a positive threshold by at most
its bound factor (1.1 for unstable_sensor, 0.95 for deadline_miss, 1 for
everything else). -/
theorem applyFeedback_le_boundFactor (t : ℚ) (fb : FeedbackKind) (ht : 0 < t) :
    applyFeedback t fb ≤ t * boundFactor fb := by
  cases fb with
  | Ack =>
      simp only [applyFeedback, boundFactor]
      have h1 : (FeedbackKind.Ack ≠ FeedbackKind.Error CODE_UNSTABLE) := by
        simp
      have h2 : (FeedbackKind.Ack ≠ FeedbackKind.Error CODE_DEADLINE_MISS) := by
        simp
      rw [if_neg h1, if_neg h2]
      split
      · nlinarith
      · simp
  | ActuatorState v =>
      simp only [applyFeedback, boundFactor]
      rw [if_neg (by simp), if_neg (by simp), mul_one]
  | Error code =>
      simp only [applyFeedback, boundFactor]
      by_cases hu : code = CODE_UNSTABLE
      · simp [hu]
      · by_cases hm : code = CODE_DEADLINE_MISS
        · simp [hu, hm, CODE_UNSTABLE, CODE_DEADLINE_MISS]
        · simp [hu, hm]

/-- Helper: the drained threshold stays positive and below the product of the
per-message unstable_sensor and deadline_miss factors; proved by induction on
the message list with the starting threshold generalized. -/
theorem drainFeedback_pos_and_bounded (msgs : List FeedbackKind) :
    ∀ t : ℚ, 0 < t →
      0 < drainFeedback t msgs ∧
      drainFeedback t msgs ≤
        t * 1.1 ^ countUnstable msgs * 0.95 ^ countMiss msgs := by
  induction msgs with
  | nil =>
      intro t ht
      refine ⟨ht, ?_⟩
      simp [drainFeedback, countUnstable, countMiss]
  | cons fb rest ih =>
      intro t ht
      have hstep := ih (applyFeedback t fb) (applyFeedback_pos t fb ht)
      have hdrain : drainFeedback t (fb :: rest) =
          drainFeedback (applyFeedback t fb) rest := rfl
      refine ⟨hdrain ▸ hstep.1, ?_⟩
      have hpow : (0 : ℚ) <
          (1.1 : ℚ) ^ countUnstable rest * 0.95 ^ countMiss rest := by
        positivity
      have hmul : drainFeedback (applyFeedback t fb) rest ≤
          (t * boundFactor fb) * 1.1 ^ countUnstable rest
            * 0.95 ^ countMiss rest := by
        calc drainFeedback (applyFeedback t fb) rest ≤
            applyFeedback t fb * 1.1 ^ countUnstable rest
              * 0.95 ^ countMiss rest := hstep.2
          _ ≤ (t * boundFactor fb) * 1.1 ^ countUnstable rest
              * 0.95 ^ countMiss rest := by
              have hb := applyFeedback_le_boundFactor t fb ht
              have := mul_le_mul_of_nonneg_right
                (mul_le_mul_of_nonneg_right hb
                  (by positivity : (0:ℚ) ≤ (1.1:ℚ) ^ countUnstable rest))
                (by positivity : (0:ℚ) ≤ (0.95:ℚ) ^ countMiss rest)
              linarith
      rw [hdrain]
      refine le_trans hmul ?_
      by_cases hu : fb = FeedbackKind.Error CODE_UNSTABLE
      · subst hu
        have hcu : countUnstable (FeedbackKind.Error CODE_UNSTABLE :: rest) =
            countUnstable rest + 1 := by
          simp [countUnstable, List.countP_cons]
        have hcm : countMiss (FeedbackKind.Error CODE_UNSTABLE :: rest) =
            countMiss rest := by
          simp [countMiss, List.countP_cons, CODE_UNSTABLE, CODE_DEADLINE_MISS]
        have hbf : boundFactor (FeedbackKind.Error CODE_UNSTABLE) = 1.1 := by
          simp [boundFactor]
        rw [hcu, hcm, hbf]
        exact le_of_eq (by ring)
      · by_cases hm : fb = FeedbackKind.Error CODE_DEADLINE_MISS
        · subst hm
          have hcu : countUnstable (FeedbackKind.Error CODE_DEADLINE_MISS :: rest) =
              countUnstable rest := by
            simp [countUnstable, List.countP_cons, CODE_UNSTABLE, CODE_DEADLINE_MISS]
          have hcm : countMiss (FeedbackKind.Error CODE_DEADLINE_MISS :: rest) =
              countMiss rest + 1 := by
            simp [countMiss, List.countP_cons]
          have hbf : boundFactor (FeedbackKind.Error CODE_DEADLINE_MISS) = 0.95 := by
            simp [boundFactor, CODE_UNSTABLE, CODE_DEADLINE_MISS]
          rw [hcu, hcm, hbf]
          exact le_of_eq (by ring)
        · have hcu : countUnstable (fb :: rest) = countUnstable rest := by
            simp [countUnstable, List.countP_cons, hu]
          have hcm : countMiss (fb :: rest) = countMiss rest := by
            simp [countMiss, List.countP_cons, hm]
          have hbf : boundFactor fb = 1 := by
            simp [boundFactor, hu, hm]
          rw [hcu, hcm, hbf, mul_one]

/-- C4 counterexample: with initial threshold 1 and a single drained Ack the
code leaves the threshold at 1 (the Ack branch requires threshold > 1.5),
while the claimed bound is 1 × 1.1^0 × 0.95^0 × 0.999^1 = 0.999 < 1. -/
theorem C4_ack_bound_counterexample :
    0 < (1 : ℚ) ∧
    ¬ (drainFeedback 1 [FeedbackKind.Ack] ≤
        1 * 1.1 ^ countUnstable [FeedbackKind.Ack]
          * 0.95 ^ countMiss [FeedbackKind.Ack]
          * 0.999 ^ countAck [FeedbackKind.Ack]) := by
  constructor
  · norm_num
  · have hd : drainFeedback 1 [FeedbackKind.Ack] = 1 := by
      norm_num [drainFeedback, applyFeedback]
    have hu : countUnstable [FeedbackKind.Ack] = 0 := by
      simp [countUnstable]
    have hm : countMiss [FeedbackKind.Ack] = 0 := by
      simp [countMiss]
    have ha : countAck [FeedbackKind.Ack] = 1 := by
      simp [countAck]
    rw [hd, hu, hm, ha]
    norm_num

/-- C4 (amended): from any positive initial threshold, draining any finite
feedback sequence yields a threshold σ with
0 < σ ≤ σ_initial × 1.1^K_unstable × 0.95^K_miss; the claimed extra factor
0.999^K_ack does not hold because an Ack at threshold ≤ 1.5 leaves the value
unchanged. -/
theorem C4_threshold_bound_amended (s0 : ℚ) (msgs : List FeedbackKind)
    (h : 0 < s0) :
    0 < drainFeedback s0 msgs ∧
    drainFeedback s0 msgs ≤
      s0 * 1.1 ^ countUnstable msgs * 0.95 ^ countMiss msgs :=
  drainFeedback_pos_and_bounded msgs s0 h

/-- Witness for the amended C4 at threshold 3 and one deadline_miss error. -/
theorem C4_threshold_bound_amended_witness :
    0 < drainFeedback 3 [FeedbackKind.Error CODE_DEADLINE_MISS] ∧
    drainFeedback 3 [FeedbackKind.Error CODE_DEADLINE_MISS] ≤
      3 * 1.1 ^ countUnstable [FeedbackKind.Error CODE_DEADLINE_MISS]
        * 0.95 ^ countMiss [FeedbackKind.Error CODE_DEADLINE_MISS] :=
  C4_threshold_bound_amended 3 [FeedbackKind.Error CODE_DEADLINE_MISS]
    (by norm_num)
